import Mathlib
set_option maxRecDepth 20000

/-!
Shallow embedding of the pglookout replication-monitoring and
failover-decision daemon (src/pglookout/pglookout.py and
src/pglookout/cluster_monitor.py).

Timestamps (ISO-8601 strings in the source, converted back and forth with
`parse_iso_datetime` / `get_iso_timestamp`) are modelled as rationals
(seconds); `datetime` subtraction becomes subtraction on ℚ and
`timedelta(seconds=s)` comparisons become comparisons with `s : ℚ`.
Python dicts are modelled as association lists that keep insertion order
(Python dicts preserve it, and `list(d.items())[0]` and iteration order
are observable in the code).  A dict key that may be absent or may hold
`null` is modelled as `Option (Option α)`: `none` = key absent,
`some none` = key present with JSON null.
-/

namespace Pglookout

/-- A WAL position `"HEX/HEX"`: the two hex halves, already parsed. -/
structure Lsn where
  high : Nat
  low : Nat
  deriving DecidableEq, Repr

/-- Model of the `ReplicationSlot` dataclass from cluster_monitor.py. -/
structure ReplicationSlot where
  slot_name : String
  plugin : String
  slot_type : String
  database : String
  catalog_xmin : String
  restart_lsn : String
  confirmed_flush_lsn : String
  state_data : String
  deriving DecidableEq, Repr

/-- A DB state record: one per database peer, as built by
`_query_cluster_member_state` / `_parse_status_query_result` and stored
in `cluster_state` (also the shape of the per-peer records inside an
observer-reported view).  `fetch_time` and `connection` are always
present; the other keys may be absent (`none`) or null (`some none`). -/
structure DBState where
  fetch_time : ℚ
  connection : Bool
  db_time : Option (Option ℚ) := none
  pg_is_in_recovery : Option Bool := none
  pg_last_xact_replay_timestamp : Option (Option ℚ) := none
  pg_last_xlog_receive_location : Option (Option Lsn) := none
  pg_last_xlog_replay_location : Option (Option Lsn) := none
  replication_time_lag : Option (Option ℚ) := none
  min_replication_time_lag : Option ℚ := none
  replication_start_time : Option ℚ := none
  replication_slots : Option (List ReplicationSlot) := none
  deriving DecidableEq, Repr

/-- Association-list lookup (`d.get(k)` / `k in d`), first match wins. -/
def alookup {κ α : Type} [DecidableEq κ] : List (κ × α) → κ → Option α
  | [], _ => none
  | (k, v) :: rest, key => if k = key then some v else alookup rest key

/-- Dict assignment `d[k] = v`: replace in place if the key exists
(keeping its position), otherwise append at the end. -/
def aset {κ α : Type} [DecidableEq κ] : List (κ × α) → κ → α → List (κ × α)
  | [], key, v => [(key, v)]
  | (k, w) :: rest, key, v =>
      if k = key then (key, v) :: rest else (k, w) :: aset rest key v

/-- Modelled from the spec: `convert_xlog_location_to_offset` lives in
`pglookout/common.py`, which is not under src/.  The spec (§3, §8.4)
defines the conversion of a WAL position `HEX/HEX` as
`(high << 32) | low`. -/
def convert_xlog_location_to_offset (l : Lsn) : Nat :=
  (l.high <<< 32) ||| l.low

/-- Model of `node_state[pg_last_xlog_receive_location] or
node_state[pg_last_xlog_replay_location]`: Python `or` takes the first
truthy value (absent and null are both falsy). -/
def lsn_of (ns : DBState) : Option Lsn :=
  match ns.pg_last_xlog_receive_location with
  | some (some l) => some l
  | _ =>
    match ns.pg_last_xlog_replay_location with
    | some (some l) => some l
    | _ => none

/-- Model of `convert_xlog_location_to_offset(lsn) if lsn else 0`. -/
def xlog_pos (ns : DBState) : Nat :=
  match lsn_of ns with
  | some l => convert_xlog_location_to_offset l
  | none => 0

/-- Model of `known_replication_positions.setdefault(xlog_pos, set()).add(hostname)`
on a dict of sets, modelled as an ordered association list whose values
are lists without duplicates. -/
def pos_insert : List (Nat × List String) → Nat → String → List (Nat × List String)
  | [], pos, h => [(pos, [h])]
  | (k, hs) :: rest, pos, h =>
      if k = pos then (k, if h ∈ hs then hs else hs ++ [h]) :: rest
      else (k, hs) :: pos_insert rest pos h

/-- Model of `get_replication_positions` (pglookout.py lines 347-367): collect,
for each standby with `connection=true`, a local `fetch_time` within the
last 20 seconds and not in `never_promote_these_nodes`, the mapping
`xlog offset → set of hostnames`. -/
def get_replication_positions (now : ℚ) (never_promote_these_nodes : List String)
    (standby_nodes : List (String × DBState)) : List (Nat × List String) :=
  standby_nodes.foldl
    (fun acc hn =>
      if hn.2.connection ∧ now - hn.2.fetch_time < 20 ∧ hn.1 ∉ never_promote_these_nodes then
        pos_insert acc (xlog_pos hn.2) hn.1
      else acc)
    []

/-- Model of `max(known_replication_positions)`: maximum of the keys (offsets are
naturals, so folding from 0 returns the maximum of a non-empty map). -/
def key_max (positions : List (Nat × List String)) : Nat :=
  positions.foldl (fun a p => max a p.1) 0

/-- Python `min` over a non-empty collection of strings: the
lexicographic minimum. -/
def min_string : List String → Option String
  | [] => none
  | s :: rest => some (rest.foldl min s)

/-- Model of `min(known_replication_positions[max(known_replication_positions)])`. -/
def furthest_along_host (positions : List (Nat × List String)) : String :=
  ((alookup positions (key_max positions)).bind min_string).getD ""

/-- The fields of the `PgLookout` object that `do_failover_decision` and
`_have_we_been_in_contact_with_the_master_within_the_failover_timeout`
read.  The master/observer maps are the ones produced by
`create_node_map`; `maintenance_mode_file_exists` models the
`check_for_maintenance_mode_file` filesystem probe. -/
structure FoState where
  connected_master_nodes : List (String × DBState)
  disconnected_master_nodes : List (String × DBState)
  connected_observer_nodes : List (String × ℚ)
  disconnected_observer_nodes : List (String × ℚ)
  never_promote_these_nodes : List String
  own_db : Option String
  replication_lag_failover_timeout : ℚ
  maintenance_mode_file_exists : Bool
  deriving Repr

/-- Model of the method
`_have_we_been_in_contact_with_the_master_within_the_failover_timeout`
(pglookout.py lines 369-379): it looks at the FIRST entry of
`disconnected_master_nodes` only; an absent or null `db_time` is
replaced by the current timestamp. -/
def have_contact_with_master_within_failover_timeout (now : ℚ) (st : FoState) : Bool :=
  match st.disconnected_master_nodes with
  | [] => false
  | (_, node) :: _ =>
      let db_time : ℚ :=
        match node.db_time with
        | some (some t) => t
        | _ => now
      now - db_time < st.replication_lag_failover_timeout

/-- The distinct exit points of `do_failover_decision`. -/
inductive FailoverOutcome
  | still_connected_or_recent_master_contact
  | no_known_replication_positions
  | other_node_is_furthest
  | maintenance_mode_file_present
  | own_node_in_never_promote
  | not_aware_of_enough_nodes
  | failover_command_executed
  deriving DecidableEq, Repr

/-- Model of `amount_of_known_replication_positions`: sum of the set sizes. -/
def amount_of_known_positions (positions : List (Nat × List String)) : Nat :=
  positions.foldl (fun a p => a + p.2.length) 0

/-- Model of `total_amount_of_nodes = len(standby_nodes) + 1 -
len(never_promote_these_nodes) + total_observers` (an int; can go
negative). -/
def total_amount_of_nodes (st : FoState) (standby_nodes : List (String × DBState)) : ℤ :=
  (standby_nodes.length : ℤ) + 1 - st.never_promote_these_nodes.length
    + (st.connected_observer_nodes.length + st.disconnected_observer_nodes.length)

/-- Model of `size_of_known_state = amount_of_known_replication_positions +
len(connected_observer_nodes)`. -/
def size_of_known_state (st : FoState) (positions : List (Nat × List String)) : Nat :=
  amount_of_known_positions positions + st.connected_observer_nodes.length

/-- Model of `self.own_db in self.never_promote_these_nodes`: `own_db` may be
`None`, which is never an element of the (string) list. -/
def own_db_in_never_promote (st : FoState) : Bool :=
  match st.own_db with
  | some d => d ∈ st.never_promote_these_nodes
  | none => false

/-- Model of `do_failover_decision` (pglookout.py lines 381-433).  `own_state` is
`self.cluster_state.get(self.own_db)`.  The external
`execute_external_command(self.failover_command)` call is modelled by
the outcome `failover_command_executed`. -/
def do_failover_decision (now : ℚ) (st : FoState) (own_state : Option DBState)
    (standby_nodes : List (String × DBState)) : FailoverOutcome :=
  if st.connected_master_nodes.length > 0
      ∨ have_contact_with_master_within_failover_timeout now st then
    .still_connected_or_recent_master_contact
  else
    let known_replication_positions :=
      get_replication_positions now st.never_promote_these_nodes standby_nodes
    if known_replication_positions.isEmpty then
      .no_known_replication_positions
    else
      let furthest := furthest_along_host known_replication_positions
      let size_of_needed_majority : ℚ :=
        (total_amount_of_nodes st standby_nodes : ℚ) * 0.5
      let known : ℚ := (size_of_known_state st known_replication_positions : ℚ)
      if alookup standby_nodes furthest = own_state then
        if st.maintenance_mode_file_exists then
          .maintenance_mode_file_present
        else if own_db_in_never_promote st then
          .own_node_in_never_promote
        else if known < size_of_needed_majority then
          .not_aware_of_enough_nodes
        else
          .failover_command_executed
      else
        .other_node_is_furthest

/-- An observer state record as stored in `observer_state`: the keys
`"fetch_time"` and `"connection"` plus one dict-valued entry per peer
the observer reports on (`create_node_map` skips the non-dict values
with an `isinstance` check, so the record is modelled with the peer
entries separated out). -/
structure ObserverRecord where
  fetch_time : ℚ
  connection : Bool
  nodes : List (String × DBState)
  deriving DecidableEq, Repr

/-- The dict variables mutated by `create_node_map` while it walks the
cluster state and the observer states.  `master_node_leftover` models
the loop-local `master_node` variable (line 219 assigns it
`connected_master_nodes.get(host, {})`; the empty-dict default and the
initial `None` are conflated, both being falsy downstream). -/
structure NodeMapSets where
  standby_nodes : List (String × DBState) := []
  connected_master_nodes : List (String × DBState) := []
  disconnected_master_nodes : List (String × DBState) := []
  connected_observer_nodes : List (String × ℚ) := []
  disconnected_observer_nodes : List (String × ℚ) := []
  master_node_leftover : Option DBState := none
  deriving Repr

/-- First loop of `create_node_map` (pglookout.py lines 184-193):
classify each locally observed peer by `pg_is_in_recovery` and
`connection`. -/
def classify_local (cluster_state : List (String × DBState)) : NodeMapSets :=
  cluster_state.foldl
    (fun s hn =>
      match hn.2.pg_is_in_recovery with
      | none => s
      | some true => { s with standby_nodes := aset s.standby_nodes hn.1 hn.2 }
      | some false =>
          if hn.2.connection then
            { s with connected_master_nodes := aset s.connected_master_nodes hn.1 hn.2 }
          else
            { s with disconnected_master_nodes := aset s.disconnected_master_nodes hn.1 hn.2 })
    {}

/-- Model of `get_iso_timestamp(datetime.datetime(year=2000, month=1, day=1))`
(the default used when a host has no local record), as epoch seconds. -/
def default_own_fetch_time : ℚ := 946684800

/-- Body of the inner observer loop of `create_node_map` (pglookout.py
lines 201-231) for one observed peer `host` with record `db_state`. -/
def observe_host (cluster_state : List (String × DBState)) (own_db : Option String)
    (s : NodeMapSets) (host : String) (db_state : DBState) : NodeMapSets :=
  if (alookup cluster_state host).isNone then
    -- a single observer can observe multiple replication clusters;
    -- nodes outside our own cluster are ignored
    s
  else
    let own_fetch_time :=
      ((alookup cluster_state host).map DBState.fetch_time).getD default_own_fetch_time
    let observer_fetch_time := db_state.fetch_time
    match db_state.pg_is_in_recovery with
    | none => s
    | some true =>
        -- we always trust ourselves the most for localhost, and in case
        -- we are actually connected to the other node
        if observer_fetch_time ≥ own_fetch_time ∧ some host ≠ own_db ∧
            (((alookup s.standby_nodes host).map DBState.connection).getD false) = false then
          { s with standby_nodes := aset s.standby_nodes host db_state }
        else s
    | some false =>
        let master_node := alookup s.connected_master_nodes host
        let connected := (master_node.map DBState.connection).getD false
        let s := { s with master_node_leftover := master_node }
        if observer_fetch_time ≥ own_fetch_time ∧ some host ≠ own_db then
          if connected then
            { s with connected_master_nodes := aset s.connected_master_nodes host db_state }
          else
            { s with disconnected_master_nodes := aset s.disconnected_master_nodes host db_state }
        else s

/-- Body of the outer observer loop of `create_node_map` (pglookout.py
lines 195-231) for one observer. -/
def observe_observer (cluster_state : List (String × DBState)) (own_db : Option String)
    (s : NodeMapSets) (observer_name : String) (state : ObserverRecord) : NodeMapSets :=
  let s :=
    if state.connection then
      { s with connected_observer_nodes := aset s.connected_observer_nodes observer_name state.fetch_time }
    else
      { s with disconnected_observer_nodes := aset s.disconnected_observer_nodes observer_name state.fetch_time }
  state.nodes.foldl (fun s hn => observe_host cluster_state own_db s hn.1 hn.2) s

/-- The full result of `create_node_map`: the returned triple together
with the four maps assigned to `self` (lines 233-236) and the
`multiple_master_warning` alert side effect. -/
structure NodeMapResult where
  master_host : Option String
  master_node : Option DBState
  standby_nodes : List (String × DBState)
  connected_master_nodes : List (String × DBState)
  disconnected_master_nodes : List (String × DBState)
  connected_observer_nodes : List (String × ℚ)
  disconnected_observer_nodes : List (String × ℚ)
  multiple_master_alert : Bool
  deriving Repr

/-- Model of `create_node_map` (pglookout.py lines 178-252). -/
def create_node_map (cluster_state : List (String × DBState))
    (observer_state : List (String × ObserverRecord)) (own_db : Option String) :
    NodeMapResult :=
  let s := classify_local cluster_state
  let s := observer_state.foldl
    (fun s ob => observe_observer cluster_state own_db s ob.1 ob.2) s
  let base : NodeMapResult :=
    { master_host := none
      master_node := s.master_node_leftover
      standby_nodes := s.standby_nodes
      connected_master_nodes := s.connected_master_nodes
      disconnected_master_nodes := s.disconnected_master_nodes
      connected_observer_nodes := s.connected_observer_nodes
      disconnected_observer_nodes := s.disconnected_observer_nodes
      multiple_master_alert := false }
  match s.connected_master_nodes with
  | [] =>
      -- no known master; fall back to the first disconnected master, if any
      match s.disconnected_master_nodes with
      | [] => base
      | (mh, mn) :: _ => { base with master_host := some mh, master_node := some mn }
  | [(mh, mn)] => { base with master_host := some mh, master_node := some mn }
  | _ =>
      -- more than one connected master: `multiple_master_warning` alert
      { base with multiple_master_alert := true, master_node := s.master_node_leftover }

/-! ## cluster_monitor.py: observer fetches and cluster-member updates -/

/-- A successful HTTP response from an observer endpoint `/state.json`: the
parsed `Date` header (as a local-comparable timestamp) and the JSON
body (the cluster-state map of the observer). -/
structure HttpResponse where
  date : ℚ
  body : List (String × DBState)
  deriving Repr

/-- What `requests.Session.get` did: succeeded, raised
`requests.ConnectionError`, or raised some other exception. -/
inductive FetchAttempt
  | ok (response : HttpResponse)
  | connection_error
  | other_error
  deriving Repr

/-- Model of `_fetch_observer_state` (cluster_monitor.py lines 126-149).
`now` is the local clock reading stamped into `result["fetch_time"]`.
The time-skew check computes `time_diff = fetch_time - remote Date` and
discards the response (returns `None`) only when `time_diff >
timedelta(seconds=5)`. -/
def fetch_observer_state_inner (now : ℚ) (attempt : FetchAttempt) : Option ObserverRecord :=
  match attempt with
  | .ok resp =>
      let time_diff := now - resp.date
      if time_diff > 5 then none
      else some { fetch_time := now, connection := true, nodes := resp.body }
  | .connection_error => some { fetch_time := now, connection := false, nodes := [] }
  | .other_error => some { fetch_time := now, connection := false, nodes := [] }

/-- Python `dict.update` on an observer record: `fetch_time` and
`connection` are always present in the incoming record; the per-peer
entries of the incoming record override or extend the stored ones. -/
def observer_record_update (old new : ObserverRecord) : ObserverRecord :=
  { fetch_time := new.fetch_time
    connection := new.connection
    nodes := new.nodes.foldl (fun acc hn => aset acc hn.1 hn.2) old.nodes }

/-- Model of `fetch_observer_state` (cluster_monitor.py lines 151-160): the
stored record for the observer is updated only when
`_fetch_observer_state` returned a result; a `None` (discarded)
result leaves `observer_state` untouched. -/
def fetch_observer_state (now : ℚ) (attempt : FetchAttempt)
    (stored : Option ObserverRecord) : Option ObserverRecord :=
  match fetch_observer_state_inner now attempt with
  | none => stored
  | some r =>
      match stored with
      | none => some r
      | some old => some (observer_record_update old r)

/-- Returns `n` if the key is present in the incoming dict, otherwise the old
value: one key of a Python `dict.update`. -/
def opt_update {α : Type} (o n : Option α) : Option α :=
  match n with
  | some v => some v
  | none => o

/-- Python `dict.update` on a DB state record.  `fetch_time` and
`connection` are present in every query result
(`_query_cluster_member_state` line 199), so they are always
overwritten; every other key is overwritten only when present in the
incoming record. -/
def dbstate_update (old new : DBState) : DBState :=
  { fetch_time := new.fetch_time
    connection := new.connection
    db_time := opt_update old.db_time new.db_time
    pg_is_in_recovery := opt_update old.pg_is_in_recovery new.pg_is_in_recovery
    pg_last_xact_replay_timestamp :=
      opt_update old.pg_last_xact_replay_timestamp new.pg_last_xact_replay_timestamp
    pg_last_xlog_receive_location :=
      opt_update old.pg_last_xlog_receive_location new.pg_last_xlog_receive_location
    pg_last_xlog_replay_location :=
      opt_update old.pg_last_xlog_replay_location new.pg_last_xlog_replay_location
    replication_time_lag := opt_update old.replication_time_lag new.replication_time_lag
    min_replication_time_lag :=
      opt_update old.min_replication_time_lag new.min_replication_time_lag
    replication_start_time := opt_update old.replication_start_time new.replication_start_time
    replication_slots := opt_update old.replication_slots new.replication_slots }

/-- Model of `update_cluster_member_state` (cluster_monitor.py lines 288-319),
as a transition on the cluster-state entry for one instance.  `old` is
the previous entry (if any), `result` the fresh query result,
`now_monotonic` the `time.monotonic()` reading.  The
`result.setdefault("replication_start_time", ...)` call mutates
`result`, which aliases the stored record only when the instance was
new, so it affects the stored state only in that case. -/
def update_cluster_member_state (old : Option DBState) (result : DBState)
    (now_monotonic : ℚ) : DBState :=
  let stored :=
    match old with
    | some o => dbstate_update o result
    | none => result
  let stored :=
    match old with
    | none =>
        let has_receive_location : Bool :=
          match result.pg_last_xlog_receive_location with
          | some (some _) => true
          | _ => false
        if has_receive_location && stored.replication_start_time.isNone then
          { stored with replication_start_time := some now_monotonic }
        else stored
    | some _ => stored
  let min_lag := stored.min_replication_time_lag
  let now_lag : Option ℚ :=
    match result.replication_time_lag with
    | some (some x) => some x
    | _ => none
  match now_lag with
  | none => stored
  | some x =>
      let new_min := some (match min_lag with | none => x | some m => min m x)
      { stored with min_replication_time_lag := new_min }

/-! ## pglookout.py: configuration loading -/

/-- A parsed JSON configuration object (only its identity matters for
the reload behaviour; the recognised keys are read elsewhere). -/
structure PgConfig where
  entries : List (String × String)
  deriving DecidableEq, Repr

/-- What `load_config` did: terminated the process via `sys.exit` or
continued with a configuration. -/
inductive ConfigLoadOutcome
  | exited (code : Nat)
  | loaded (config : PgConfig)
  deriving DecidableEq, Repr

/-- Model of `load_config` (pglookout.py lines 110-120), restricted to the
JSON-loading try/except.  The same function is installed as the SIGHUP
handler (line 82), so this code runs identically at startup and at
reload.  `previous` is the configuration held before the call
(`self.config`); `parsed` is the outcome of `json.load` (`none` models
a parse failure).  On failure the code runs
`self.log.exception("Invalid JSON config, exiting"); sys.exit(1)`
without consulting the previous configuration. -/
def load_config (_previous : Option PgConfig) (parsed : Option PgConfig) : ConfigLoadOutcome :=
  match parsed with
  | none => .exited 1
  | some c => .loaded c

/-! ## General lemmas about the association-list operations -/

theorem alookup_isSome_of_mem_keys {κ α : Type} [DecidableEq κ] :
    ∀ (l : List (κ × α)) (k : κ), k ∈ l.map Prod.fst → (alookup l k).isSome
  | [], k, h => by simp at h
  | (k0, v0) :: rest, k, h => by
    by_cases hk : k0 = k
    · simp [alookup, hk]
    · have : k ∈ rest.map Prod.fst := by
        simp only [List.map_cons, List.mem_cons] at h
        rcases h with h | h
        · exact absurd h.symm hk
        · exact h
      simpa [alookup, hk] using alookup_isSome_of_mem_keys rest k this

theorem mem_of_alookup_eq_some {κ α : Type} [DecidableEq κ] :
    ∀ {l : List (κ × α)} {k : κ} {v : α}, alookup l k = some v → (k, v) ∈ l
  | [], _, _, h => by simp [alookup] at h
  | (k0, v0) :: rest, k, v, h => by
    by_cases hk : k0 = k
    · subst hk
      rw [alookup, if_pos rfl] at h
      injection h with h
      subst h
      exact List.mem_cons_self _ _
    · simp only [alookup, if_neg hk] at h
      exact List.mem_cons_of_mem _ (mem_of_alookup_eq_some h)

theorem foldl_max_mem (l : List Nat) : ∀ (a : Nat), l.foldl max a ∈ a :: l := by
  induction l with
  | nil => intro a; simp
  | cons b bs ih =>
      intro a
      simp only [List.foldl_cons]
      rcases List.mem_cons.mp (ih (max a b)) with h | h
      · rw [h]
        rcases max_choice a b with hab | hab <;> rw [hab] <;> simp
      · exact List.mem_cons_of_mem _ (List.mem_cons_of_mem _ h)

theorem le_foldl_max (l : List Nat) : ∀ (a : Nat), ∀ x ∈ a :: l, x ≤ l.foldl max a := by
  induction l with
  | nil =>
      intro a x hx
      simp only [List.mem_singleton] at hx
      simp [hx]
  | cons b bs ih =>
      intro a x hx
      simp only [List.foldl_cons]
      rcases List.mem_cons.mp hx with h | h
      · rw [h]
        exact le_trans (le_max_left a b) (ih (max a b) _ (List.mem_cons_self _ _))
      · rcases List.mem_cons.mp h with h2 | h2
        · rw [h2]
          exact le_trans (le_max_right a b) (ih (max a b) _ (List.mem_cons_self _ _))
        · exact ih (max a b) x (List.mem_cons_of_mem _ h2)

theorem foldl_min_mem {α : Type} [LinearOrder α] (l : List α) :
    ∀ (a : α), l.foldl min a ∈ a :: l := by
  induction l with
  | nil => intro a; simp
  | cons b bs ih =>
      intro a
      simp only [List.foldl_cons]
      rcases List.mem_cons.mp (ih (min a b)) with h | h
      · rw [h]
        rcases min_choice a b with hab | hab <;> rw [hab] <;> simp
      · exact List.mem_cons_of_mem _ (List.mem_cons_of_mem _ h)

theorem foldl_min_le {α : Type} [LinearOrder α] (l : List α) :
    ∀ (a : α), ∀ x ∈ a :: l, l.foldl min a ≤ x := by
  induction l with
  | nil =>
      intro a x hx
      simp only [List.mem_singleton] at hx
      simp [hx]
  | cons b bs ih =>
      intro a x hx
      simp only [List.foldl_cons]
      rcases List.mem_cons.mp hx with h | h
      · rw [h]
        exact le_trans (ih (min a b) _ (List.mem_cons_self _ _)) (min_le_left a b)
      · rcases List.mem_cons.mp h with h2 | h2
        · rw [h2]
          exact le_trans (ih (min a b) _ (List.mem_cons_self _ _)) (min_le_right a b)
        · exact ih (min a b) x (List.mem_cons_of_mem _ h2)

theorem min_string_spec (s : String) (rest : List String) :
    ∃ m, min_string (s :: rest) = some m ∧ m ∈ s :: rest ∧ ∀ x ∈ s :: rest, m ≤ x :=
  ⟨rest.foldl min s, rfl, foldl_min_mem rest s, fun x hx => foldl_min_le rest s x hx⟩

theorem key_max_mem (positions : List (Nat × List String)) (h : positions ≠ []) :
    key_max positions ∈ positions.map Prod.fst := by
  rw [key_max, ← List.foldl_map (f := Prod.fst) (g := max)]
  rcases positions with _ | ⟨p, ps⟩
  · exact absurd rfl h
  · simp only [List.map_cons, List.foldl_cons, Nat.zero_max]
    exact foldl_max_mem (ps.map Prod.fst) p.1

theorem le_key_max (positions : List (Nat × List String)) :
    ∀ p ∈ positions, p.1 ≤ key_max positions := by
  intro p hp
  rw [key_max, ← List.foldl_map (f := Prod.fst) (g := max)]
  exact le_foldl_max (positions.map Prod.fst) 0 p.1
    (List.mem_cons_of_mem _ (List.mem_map_of_mem Prod.fst hp))

theorem pos_insert_values_ne_nil :
    ∀ (l : List (Nat × List String)) (pos : Nat) (h : String),
      (∀ p ∈ l, p.2 ≠ []) → ∀ p ∈ pos_insert l pos h, p.2 ≠ []
  | [], pos, h, _, p, hp => by
    simp only [pos_insert, List.mem_singleton] at hp
    subst hp
    simp
  | (k, hs) :: rest, pos, h, hl, p, hp => by
    simp only [pos_insert] at hp
    by_cases hk : k = pos
    · rw [if_pos hk] at hp
      rcases List.mem_cons.mp hp with h1 | h1
      · subst h1
        by_cases hmem : h ∈ hs
        · simp only [if_pos hmem]
          exact List.ne_nil_of_mem hmem
        · simp only [if_neg hmem]
          exact fun hnil => by simpa using congrArg List.length hnil
      · exact hl p (List.mem_cons_of_mem _ h1)
    · rw [if_neg hk] at hp
      rcases List.mem_cons.mp hp with h1 | h1
      · subst h1
        exact hl (k, hs) (List.mem_cons_self _ _)
      · exact pos_insert_values_ne_nil rest pos h
          (fun q hq => hl q (List.mem_cons_of_mem _ hq)) p h1

theorem get_replication_positions_values_ne_nil
    (now : ℚ) (nevers : List String) (sb : List (String × DBState)) :
    ∀ p ∈ get_replication_positions now nevers sb, p.2 ≠ [] := by
  rw [get_replication_positions]
  suffices h : ∀ (acc : List (Nat × List String)), (∀ p ∈ acc, p.2 ≠ []) →
      ∀ p ∈ sb.foldl
        (fun acc hn =>
          if hn.2.connection ∧ now - hn.2.fetch_time < 20 ∧ hn.1 ∉ nevers then
            pos_insert acc (xlog_pos hn.2) hn.1
          else acc) acc, p.2 ≠ [] by
    exact h [] (by simp)
  induction sb with
  | nil => intro acc hacc p hp; exact hacc p hp
  | cons hd tl ih =>
      intro acc hacc
      simp only [List.foldl_cons]
      apply ih
      by_cases hc : hd.2.connection ∧ now - hd.2.fetch_time < 20 ∧ hd.1 ∉ nevers
      · rw [if_pos hc]
        exact pos_insert_values_ne_nil acc (xlog_pos hd.2) hd.1 hacc
      · rw [if_neg hc]
        exact hacc

/-! ## Concrete cluster fixtures used by the scenario theorems

All scenarios use `now = 1000` (seconds); the failover timeout is the
default `max_failover_replication_time_lag = 120.0`. -/

/-- A healthy standby record: connected, fetched 10 s ago, WAL receive
position `1/2` (offset `0x100000002`). -/
def standby_record : DBState :=
  { fetch_time := 990
    connection := true
    pg_is_in_recovery := some true
    pg_last_xlog_receive_location := some (some ⟨1, 2⟩) }

/-- A standby record whose `fetch_time` is 100 s old, so it is dropped
by the 20-second freshness filter of `get_replication_positions`. -/
def stale_standby_record : DBState :=
  { fetch_time := 900
    connection := true
    pg_is_in_recovery := some true
    pg_last_xlog_receive_location := some (some ⟨1, 1⟩) }

/-- Decision-relevant state of a node named `b`: no masters, no
observers, nothing in `never_promote_these_nodes`, no maintenance
file, default failover timeout. -/
def base_fo_state : FoState :=
  { connected_master_nodes := []
    disconnected_master_nodes := []
    connected_observer_nodes := []
    disconnected_observer_nodes := []
    never_promote_these_nodes := []
    own_db := some "b"
    replication_lag_failover_timeout := 120
    maintenance_mode_file_exists := false }

/-- Two standbys `a` and `b` carrying identical state records. -/
def two_standbys : List (String × DBState) := [("a", standby_record), ("b", standby_record)]

/-- The same two standbys in the opposite insertion order. -/
def c4_standbys : List (String × DBState) := [("b", standby_record), ("a", standby_record)]

/-- Three standbys of which only `a` passes the freshness filter. -/
def sparse_standbys : List (String × DBState) :=
  [("a", standby_record), ("c", stale_standby_record), ("d", stale_standby_record)]

/-- Four-node quorum scenario: standbys `a` and `b` are fresh, `c` is
stale, so `known = 2` while `total = 3 + 1 = 4`. -/
def half_quorum_standbys : List (String × DBState) :=
  [("a", standby_record), ("b", standby_record), ("c", stale_standby_record)]

/-- A disconnected master last heard from 500 s ago (beyond the 120 s
failover timeout). -/
def stale_disconnected_master : DBState :=
  { fetch_time := 500
    connection := false
    pg_is_in_recovery := some false
    db_time := some (some 500) }

/-- A disconnected master heard from 5 s ago (well within the 120 s
failover timeout). -/
def fresh_disconnected_master : DBState :=
  { fetch_time := 995
    connection := false
    pg_is_in_recovery := some false
    db_time := some (some 995) }

/-- A disconnected master that has never been successfully probed: no
`db_time` key at all. -/
def never_probed_master : DBState :=
  { fetch_time := 500
    connection := false
    pg_is_in_recovery := some false }

/-- Decision state with two disconnected masters: the stale one first
in insertion order, the recently seen one second. -/
def two_disconnected_masters_state : FoState :=
  { base_fo_state with
      disconnected_master_nodes :=
        [("m1", stale_disconnected_master), ("m2", fresh_disconnected_master)] }

/-- Decision state whose only disconnected master lacks `db_time`. -/
def never_probed_master_state : FoState :=
  { base_fo_state with disconnected_master_nodes := [("m", never_probed_master)] }

/-- The stale local record of scenario S4 for peer `B`: a master we lost
the connection to 60 s ago. -/
def local_b_record : DBState :=
  { fetch_time := 940
    connection := false
    pg_is_in_recovery := some false }

/-- The observer-reported record of scenario S4 for peer `B`:
`fetch_time = now`, `connection = true`, `pg_is_in_recovery = false`. -/
def observed_b_record : DBState :=
  { fetch_time := 1000
    connection := true
    pg_is_in_recovery := some false }

/-- An observer whose view reports peer `B` as a connected master. -/
def observer_view_of_b : ObserverRecord :=
  { fetch_time := 1000
    connection := true
    nodes := [("B", observed_b_record)] }

/-- A previously stored observer record with `connection = true`. -/
def stored_observer_record : ObserverRecord :=
  { fetch_time := 50
    connection := true
    nodes := [] }

/-! ## Claim theorems -/

/-- C4 (confirmed): for every non-empty replication-position map built
by `get_replication_positions`, the candidate `furthest_along_host`
selected by `do_failover_decision` looks up the set of peers recorded
at the maximum offset (`key_max` bounds every recorded offset from
above and is itself a recorded offset) and picks a member of that set
that is lexicographically least in it.  The selection is a pure
function of the map, so every decider computing over the same map
converges on the same peer. -/
theorem failover_candidate_is_lex_min_at_max_offset
    (now : ℚ) (nevers : List String) (sb : List (String × DBState))
    (hne : get_replication_positions now nevers sb ≠ []) :
    ∃ tied : List String,
      alookup (get_replication_positions now nevers sb)
        (key_max (get_replication_positions now nevers sb)) = some tied ∧
      furthest_along_host (get_replication_positions now nevers sb) ∈ tied ∧
      (∀ p ∈ tied, furthest_along_host (get_replication_positions now nevers sb) ≤ p) ∧
      (∀ kv ∈ get_replication_positions now nevers sb,
        kv.1 ≤ key_max (get_replication_positions now nevers sb)) := by
  have hkm : key_max (get_replication_positions now nevers sb) ∈
      (get_replication_positions now nevers sb).map Prod.fst :=
    key_max_mem _ hne
  have hsome := alookup_isSome_of_mem_keys _ _ hkm
  obtain ⟨tied, htied⟩ := Option.isSome_iff_exists.mp hsome
  have hmem := mem_of_alookup_eq_some htied
  have htne : tied ≠ [] :=
    get_replication_positions_values_ne_nil now nevers sb _ hmem
  obtain ⟨t, ts, rfl⟩ := List.exists_cons_of_ne_nil htne
  obtain ⟨m, hm_eq, hm_mem, hm_le⟩ := min_string_spec t ts
  have hfur : furthest_along_host (get_replication_positions now nevers sb) = m := by
    rw [furthest_along_host, htied]
    simp [hm_eq]
  refine ⟨t :: ts, htied, ?_, ?_, le_key_max _⟩
  · rw [hfur]; exact hm_mem
  · intro p hp; rw [hfur]; exact hm_le p hp

/-- Witness for C4: the two-standby tie `c4_standbys`, where both peers
sit at offset `0x100000002` and the candidate is `"a"`. -/
theorem failover_candidate_is_lex_min_at_max_offset_witness :
    (get_replication_positions 1000 [] c4_standbys ≠ []) ∧
    (∃ tied : List String,
      alookup (get_replication_positions 1000 [] c4_standbys)
        (key_max (get_replication_positions 1000 [] c4_standbys)) = some tied ∧
      furthest_along_host (get_replication_positions 1000 [] c4_standbys) ∈ tied ∧
      (∀ p ∈ tied, furthest_along_host (get_replication_positions 1000 [] c4_standbys) ≤ p) ∧
      (∀ kv ∈ get_replication_positions 1000 [] c4_standbys,
        kv.1 ≤ key_max (get_replication_positions 1000 [] c4_standbys))) :=
  ⟨by with_unfolding_all decide,
   failover_candidate_is_lex_min_at_max_offset 1000 [] c4_standbys
     (by with_unfolding_all decide)⟩

/-- C2 (amended): `do_failover_decision` invokes the failover command
only when no connected master exists and
`_have_we_been_in_contact_with_the_master_within_the_failover_timeout`
is false; the latter examines only the FIRST entry of
`disconnected_master_nodes`, so a recently heard-from disconnected
master beyond the first is not consulted. -/
theorem failover_requires_empty_connected_masters_and_no_first_master_contact
    (now : ℚ) (st : FoState) (own_state : Option DBState)
    (standby_nodes : List (String × DBState))
    (h : do_failover_decision now st own_state standby_nodes = .failover_command_executed) :
    st.connected_master_nodes = [] ∧
    have_contact_with_master_within_failover_timeout now st = false := by
  rw [do_failover_decision] at h
  split at h
  · exact absurd h (by simp)
  · rename_i hc
    push_neg at hc
    obtain ⟨h1, h2⟩ := hc
    refine ⟨List.length_eq_zero.mp (by omega), ?_⟩
    simpa using h2

/-- Witness for C2: a state where the failover command fires, so both
gate conditions indeed hold there. -/
theorem failover_requires_empty_connected_masters_witness :
    (do_failover_decision 1000 base_fo_state (some standby_record) two_standbys =
      .failover_command_executed) ∧
    (base_fo_state.connected_master_nodes = [] ∧
     have_contact_with_master_within_failover_timeout 1000 base_fo_state = false) :=
  ⟨by with_unfolding_all decide,
   failover_requires_empty_connected_masters_and_no_first_master_contact
     1000 base_fo_state (some standby_record) two_standbys
     (by with_unfolding_all decide)⟩

/-- Counterexample to C2 as stated: with two disconnected masters where
only the second (`m2`, `db_time = 995`) has been heard from within the
120 s failover timeout of `now = 1000`, the decision still executes the
failover command, because only the first entry (`m1`) is examined. -/
theorem failover_fires_despite_recent_second_disconnected_master :
    alookup two_disconnected_masters_state.disconnected_master_nodes "m2" =
      some fresh_disconnected_master ∧
    fresh_disconnected_master.db_time = some (some 995) ∧
    (1000 : ℚ) - 995 < two_disconnected_masters_state.replication_lag_failover_timeout ∧
    do_failover_decision 1000 two_disconnected_masters_state (some standby_record)
      two_standbys = .failover_command_executed := by
  with_unfolding_all decide

/-- C3 (amended): with `known = size_of_known_state` and
`total = total_amount_of_nodes`, `do_failover_decision` never executes
the failover command when `known < total * 0.5` strictly; when `known`
equals exactly half of `total` the quorum gate passes (see the
counterexample). -/
theorem quorum_below_half_blocks_failover
    (now : ℚ) (st : FoState) (own_state : Option DBState)
    (standby_nodes : List (String × DBState))
    (h : (size_of_known_state st
        (get_replication_positions now st.never_promote_these_nodes standby_nodes) : ℚ) <
      (total_amount_of_nodes st standby_nodes : ℚ) * 0.5) :
    do_failover_decision now st own_state standby_nodes ≠ .failover_command_executed := by
  intro hfo
  simp only [do_failover_decision] at hfo
  split_ifs at hfo

/-- Witness for C3: only one of four nodes is known (`known = 1 <
2 = total * 0.5`), so the decision does not execute the failover
command. -/
theorem quorum_below_half_blocks_failover_witness :
    ((size_of_known_state base_fo_state
        (get_replication_positions 1000 base_fo_state.never_promote_these_nodes
          sparse_standbys) : ℚ) <
      (total_amount_of_nodes base_fo_state sparse_standbys : ℚ) * 0.5) ∧
    do_failover_decision 1000 base_fo_state (some standby_record) sparse_standbys ≠
      .failover_command_executed :=
  ⟨by with_unfolding_all decide,
   quorum_below_half_blocks_failover 1000 base_fo_state (some standby_record)
     sparse_standbys (by with_unfolding_all decide)⟩

/-- Counterexample to C3 as stated: with `total = 4` and `known = 2`
(exactly half), the quorum gate passes and the failover command is
executed, contradicting the claim that exactly half aborts. -/
theorem exactly_half_quorum_passes :
    (size_of_known_state base_fo_state
        (get_replication_positions 1000 base_fo_state.never_promote_these_nodes
          half_quorum_standbys) : ℚ) =
      (total_amount_of_nodes base_fo_state half_quorum_standbys : ℚ) * 0.5 ∧
    do_failover_decision 1000 base_fo_state (some standby_record) half_quorum_standbys =
      .failover_command_executed := by
  with_unfolding_all decide

/-- C9 (confirmed): `do_failover_decision` checks whether the local
node is the chosen candidate by value-equality of whole state records
(`standby_nodes[furthest_along_host] == own_state`), never by
comparing the peer id of the candidate with `own_db`: here the candidate is
`"a"` but the deciding node is `"b"`; since the two standbys carry
identical records, node `b` passes the self check and executes the
failover command. -/
theorem record_equality_self_check_promotes_non_candidate_node :
    do_failover_decision 1000 base_fo_state (some standby_record) two_standbys =
      .failover_command_executed ∧
    furthest_along_host (get_replication_positions 1000
      base_fo_state.never_promote_these_nodes two_standbys) = "a" ∧
    base_fo_state.own_db = some "b" ∧
    alookup two_standbys "a" = some standby_record ∧
    alookup two_standbys "b" = some standby_record := by
  with_unfolding_all decide

/-- C10 (confirmed): when the record of the first disconnected master lacks
a `db_time` value (key absent or null), the contact check substitutes
the current timestamp, the elapsed time is `0 <` the (positive)
failover timeout, and `do_failover_decision` returns at the first gate
without invoking the failover command. -/
theorem never_probed_disconnected_master_blocks_failover
    (now : ℚ) (st : FoState) (own_state : Option DBState)
    (standby_nodes : List (String × DBState))
    (m : String) (node : DBState) (rest : List (String × DBState))
    (hdm : st.disconnected_master_nodes = (m, node) :: rest)
    (hdb : node.db_time = none ∨ node.db_time = some none)
    (htimeout : 0 < st.replication_lag_failover_timeout) :
    do_failover_decision now st own_state standby_nodes =
      .still_connected_or_recent_master_contact := by
  have hc : have_contact_with_master_within_failover_timeout now st = true := by
    rw [have_contact_with_master_within_failover_timeout, hdm]
    rcases hdb with h | h <;> simp [h, htimeout]
  rw [do_failover_decision, if_pos (Or.inr hc)]

/-- Witness for C10: a disconnected master without `db_time` blocks the
promotion of an otherwise promotable standby. -/
theorem never_probed_disconnected_master_blocks_failover_witness :
    (never_probed_master_state.disconnected_master_nodes =
      [("m", never_probed_master)]) ∧
    (never_probed_master.db_time = none ∨ never_probed_master.db_time = some none) ∧
    ((0 : ℚ) < never_probed_master_state.replication_lag_failover_timeout) ∧
    do_failover_decision 1000 never_probed_master_state (some standby_record)
      two_standbys = .still_connected_or_recent_master_contact :=
  ⟨by with_unfolding_all decide, by with_unfolding_all decide,
   by with_unfolding_all decide,
   never_probed_disconnected_master_blocks_failover 1000 never_probed_master_state
     (some standby_record) two_standbys "m" never_probed_master []
     (by with_unfolding_all decide) (by with_unfolding_all decide)
     (by with_unfolding_all decide)⟩

/-- C1 (amended): in `create_node_map`, a peer reported by an observer
with `pg_is_in_recovery = false`, observer `fetch_time` not older than
the local one, and different from the local node, is placed into
`connected_masters` when its entry in the locally derived
`connected_master_nodes` map has `connection = true` (the local record
is a connected master) and into `disconnected_masters` otherwise — NOT
according to the `connection` field of the observed record: both
branches are proved with `o.connection` arbitrary, the chosen set
receives the observer record, and the other master set stays empty. -/
theorem observed_master_placed_by_local_connection_view
    (h oname : String) (own : Option String) (r o : DBState) (oft : ℚ) (oconn : Bool)
    (hrec : r.pg_is_in_recovery = some false)
    (horec : o.pg_is_in_recovery = some false)
    (hfresh : r.fetch_time ≤ o.fetch_time) (hown : some h ≠ own) :
    (create_node_map [(h, r)] [(oname, ⟨oft, oconn, [(h, o)]⟩)]
      own).connected_master_nodes = (if r.connection then [(h, o)] else []) ∧
    (create_node_map [(h, r)] [(oname, ⟨oft, oconn, [(h, o)]⟩)]
      own).disconnected_master_nodes = (if r.connection then [] else [(h, o)]) := by
  cases hrc : r.connection
  · have hclass : classify_local [(h, r)] =
        { disconnected_master_nodes := [(h, r)] } := by
      simp [classify_local, hrec, hrc, aset]
    cases oconn <;>
      simp [create_node_map, observe_observer, observe_host, hclass, alookup, aset,
        horec, ge_iff_le, hfresh, hown]
  · have hclass : classify_local [(h, r)] =
        { connected_master_nodes := [(h, r)] } := by
      simp [classify_local, hrec, hrc, aset]
    cases oconn <;>
      simp [create_node_map, observe_observer, observe_host, hclass, alookup, aset,
        horec, ge_iff_le, hfresh, hown, hrc]

/-- Witness for C1 (amended) at the S4 records with one observer (the
local record is a disconnected master, so the else branches apply). -/
theorem observed_master_placed_by_local_connection_view_witness :
    (local_b_record.pg_is_in_recovery = some false) ∧
    (observed_b_record.pg_is_in_recovery = some false) ∧
    (local_b_record.fetch_time ≤ observed_b_record.fetch_time) ∧
    ((some "B" : Option String) ≠ some "A") ∧
    ((create_node_map [("B", local_b_record)]
        [("o1", ⟨1000, true, [("B", observed_b_record)]⟩)]
        (some "A")).connected_master_nodes
      = (if local_b_record.connection then [("B", observed_b_record)] else []) ∧
    (create_node_map [("B", local_b_record)]
        [("o1", ⟨1000, true, [("B", observed_b_record)]⟩)]
        (some "A")).disconnected_master_nodes
      = (if local_b_record.connection then [] else [("B", observed_b_record)])) :=
  ⟨by with_unfolding_all decide, by with_unfolding_all decide,
   by with_unfolding_all decide, by with_unfolding_all decide,
   observed_master_placed_by_local_connection_view "B" "o1" (some "A")
     local_b_record observed_b_record 1000 true
     (by with_unfolding_all decide) (by with_unfolding_all decide)
     (by with_unfolding_all decide) (by with_unfolding_all decide)⟩

/-- Counterexample to C1 as stated (scenario S4): two observers report
peer `B` with `pg_is_in_recovery = false`, `connection = true` and
`fetch_time = now = 1000`; the local record for `B` is stale
(`fetch_time = 940`, `connection = false`).  The claim says `B` ends up
in `connected_masters`; in fact `create_node_map` puts the observer
record into `disconnected_masters` and `connected_masters` stays
empty. -/
theorem stale_master_stays_disconnected_despite_observer_report :
    observed_b_record.connection = true ∧
    observed_b_record.pg_is_in_recovery = some false ∧
    local_b_record.fetch_time ≤ observed_b_record.fetch_time ∧
    alookup (create_node_map [("B", local_b_record)]
      [("o1", observer_view_of_b), ("o2", observer_view_of_b)]
      (some "A")).disconnected_master_nodes "B" = some observed_b_record ∧
    (create_node_map [("B", local_b_record)]
      [("o1", observer_view_of_b), ("o2", observer_view_of_b)]
      (some "A")).connected_master_nodes = [] := by
  with_unfolding_all decide

/-- C5 (amended): `_fetch_observer_state` discards a successful
response (returns `None`) exactly when the local clock is more than 5
seconds AHEAD of the `Date` header of the response; a remote clock ahead of
the local one by any amount is accepted, because the signed difference
`fetch_time - remote_server_time` is compared without taking its
absolute value. -/
theorem observer_response_discarded_iff_remote_clock_behind
    (now : ℚ) (resp : HttpResponse) :
    fetch_observer_state_inner now (.ok resp) = none ↔ now - resp.date > 5 := by
  rw [fetch_observer_state_inner]
  by_cases hd : now - resp.date > 5
  · simp [hd]
  · simp [hd]

/-- Counterexample to C5 as stated: a response whose `Date` header is
10 s AHEAD of the local clock (difference greater than 5 s in the
other direction) is not discarded — its entire body is merged into the
returned record. -/
theorem response_with_remote_clock_ahead_is_accepted :
    ((110 : ℚ) - 100 > 5) ∧
    fetch_observer_state_inner 100 (.ok ⟨110, [("B", observed_b_record)]⟩) =
      some { fetch_time := 100, connection := true, nodes := [("B", observed_b_record)] } := by
  with_unfolding_all decide

/-- C6 (amended): when a response is discarded by the time-skew check,
`fetch_observer_state` leaves the stored observer record exactly as it
was — it is not updated at all, so its `connection` field keeps its
previous value (and no record is created if none existed). -/
theorem discarded_observer_response_leaves_state_unchanged
    (now : ℚ) (resp : HttpResponse) (stored : Option ObserverRecord)
    (hskew : now - resp.date > 5) :
    fetch_observer_state now (.ok resp) stored = stored := by
  rw [fetch_observer_state, fetch_observer_state_inner]
  simp [hskew]

/-- Witness for C6: a `Date` header 10 s behind the local clock leaves
the stored record untouched. -/
theorem discarded_observer_response_leaves_state_unchanged_witness :
    ((100 : ℚ) - 90 > 5) ∧
    fetch_observer_state 100 (.ok ⟨90, []⟩) (some stored_observer_record) =
      some stored_observer_record :=
  ⟨by with_unfolding_all decide,
   discarded_observer_response_leaves_state_unchanged 100 ⟨90, []⟩
     (some stored_observer_record) (by with_unfolding_all decide)⟩

/-- Counterexample to C6 as stated: the claim says the observer record
has `connection = false` after the discard; in fact the previously
stored record (with `connection = true`) is still there unchanged. -/
theorem observer_record_keeps_connection_true_after_discard :
    ((100 : ℚ) - 90 > 5) ∧
    (fetch_observer_state 100 (.ok ⟨90, []⟩)
      (some stored_observer_record)).map ObserverRecord.connection = some true := by
  with_unfolding_all decide

/-- The invariant of C7 on a single record: whenever both
`min_replication_time_lag` and a non-null `replication_time_lag` are
present, the former is bounded by the latter. -/
def lag_inv (r : DBState) : Bool :=
  match r.min_replication_time_lag, r.replication_time_lag with
  | some m, some (some x) => decide (m ≤ x)
  | _, _ => true

/-- The invariant of `lag_inv` lifted to an optional record (a peer
that has never been probed trivially satisfies it). -/
def lag_inv_opt : Option DBState → Bool
  | none => true
  | some r => lag_inv r

/-- C7 (confirmed): a call to `update_cluster_member_state` preserves
the invariant `min_replication_time_lag ≤ replication_time_lag` (for
records carrying both, with a non-null lag), and never increases the
stored `min_replication_time_lag` of a peer that already had one.
The hypothesis `result.min_replication_time_lag = none` holds for all
query results: `_query_cluster_member_state` never produces that
key. -/
theorem update_cluster_member_state_min_lag_invariant
    (old : Option DBState) (result : DBState) (now_monotonic : ℚ)
    (hres : result.min_replication_time_lag = none)
    (hold : lag_inv_opt old = true) :
    lag_inv (update_cluster_member_state old result now_monotonic) = true ∧
    (∀ o m, old = some o → o.min_replication_time_lag = some m →
      ∃ m2, (update_cluster_member_state old result now_monotonic).min_replication_time_lag
          = some m2 ∧ m2 ≤ m) := by
  rcases old with _ | o
  · refine ⟨?_, by intro o m h; cases h⟩
    rw [update_cluster_member_state]
    rcases hrtl : result.replication_time_lag with _ | (_ | x) <;>
      simp only [hrtl, hres] <;> split <;> simp [lag_inv, hres, hrtl]
  · have holdo : lag_inv o = true := hold
    constructor
    · rw [update_cluster_member_state]
      rcases hrtl : result.replication_time_lag with _ | (_ | x)
      · -- key absent in the result: the stored lag and min are unchanged
        simp only [hrtl, dbstate_update, opt_update, hres]
        rw [lag_inv] at holdo ⊢
        simpa using holdo
      · -- result carries an explicit null lag: the invariant is vacuous
        simp [hrtl, dbstate_update, opt_update, hres, lag_inv]
      · -- fresh lag x: the new minimum is bounded by x
        simp only [hrtl, dbstate_update, opt_update, hres, lag_inv]
        rcases o.min_replication_time_lag with _ | m <;>
          simp [min_le_right]
    · intro o2 m ho2 hm
      injection ho2 with ho2
      subst ho2
      rw [update_cluster_member_state]
      rcases hrtl : result.replication_time_lag with _ | (_ | x) <;>
        simp only [hrtl, dbstate_update, opt_update, hres, hm]
      · exact ⟨m, rfl, le_refl m⟩
      · exact ⟨m, rfl, le_refl m⟩
      · exact ⟨min m x, rfl, min_le_left m x⟩

/-- A fresh probe result reporting lag 3 and no minimum-lag key. -/
def probe_result_lag3 : DBState :=
  { fetch_time := 10
    connection := true
    replication_time_lag := some (some 3) }

/-- A stored record with reported lag 2 and minimum lag 1. -/
def stored_record_min1 : DBState :=
  { fetch_time := 5
    connection := true
    replication_time_lag := some (some 2)
    min_replication_time_lag := some 1 }

/-- Witness for C7: a record whose minimum lag 1 is kept when a larger
lag 3 arrives. -/
theorem update_cluster_member_state_min_lag_invariant_witness :
    (probe_result_lag3.min_replication_time_lag = none) ∧
    (lag_inv_opt (some stored_record_min1) = true) ∧
    (lag_inv (update_cluster_member_state (some stored_record_min1)
        probe_result_lag3 123) = true ∧
      (∀ o m, (some stored_record_min1 : Option DBState) = some o →
        o.min_replication_time_lag = some m →
        ∃ m2, (update_cluster_member_state (some stored_record_min1)
            probe_result_lag3 123).min_replication_time_lag = some m2 ∧ m2 ≤ m)) :=
  ⟨by with_unfolding_all decide, by with_unfolding_all decide,
   update_cluster_member_state_min_lag_invariant (some stored_record_min1)
     probe_result_lag3 123
     (by with_unfolding_all decide) (by with_unfolding_all decide)⟩

/-- C8 (amended): a JSON parse failure in `load_config` terminates the
process with `sys.exit(1)` regardless of whether a previously loaded
configuration exists — reload behaves exactly like startup; the prior
configuration is not retained. -/
theorem config_parse_failure_always_exits (previous : Option PgConfig) :
    load_config previous none = .exited 1 := rfl

/-- Counterexample to C8 as stated: at reload (a prior configuration
exists), a parse failure exits with code 1 instead of retaining the
prior configuration and continuing. -/
theorem config_reload_parse_failure_exits :
    load_config (some ⟨[("own_db", "a")]⟩) none = .exited 1 ∧
    load_config (some ⟨[("own_db", "a")]⟩) none ≠ .loaded ⟨[("own_db", "a")]⟩ := by
  with_unfolding_all decide

end Pglookout
